import Mathlib

/-!
Shallow embedding of the `railway-provision-sandbox` service
(`src/railway-client.ts`, `src/services/provisioner.ts`,
`src/handlers/webhook.ts`, `src/services/notification-setup.ts`),
together with proofs of the specified behavioural properties:
the retry/classification policy of the resilient GraphQL client,
the idempotent provisioning workflow, webhook signature handling,
and notification-rule reconciliation.
-/

/-! ### String helpers

Executable models of the JavaScript string operations the source uses
(`String.prototype.includes`, `toLowerCase`, regex replaces, `slice`). -/

/-- Whether the first character list is an initial segment of the second
(model of matching a literal pattern at the current position). -/
def isPrefixList : List Char → List Char → Bool
  | [], _ => true
  | _ :: _, [] => false
  | a :: as, b :: bs => a = b && isPrefixList as bs

/-- Model of JavaScript `hay.includes(pat)`: naive substring search. -/
def containsAux (pat : List Char) : List Char → Bool
  | [] => pat.isEmpty
  | c :: rest => isPrefixList pat (c :: rest) || containsAux pat rest

/-- `strContains hay pat` models `hay.includes(pat)` on strings. -/
def strContains (hay pat : String) : Bool :=
  containsAux pat.toList hay.toList

/-- ASCII lower-casing of one character (the only case the source's inputs
exercise in `toLowerCase`). -/
def charToLower (c : Char) : Char :=
  if 'A' ≤ c ∧ c ≤ 'Z' then Char.ofNat (c.toNat + 32) else c

/-- `s.toLowerCase()` over ASCII. -/
def strToLower (s : String) : String :=
  String.mk (s.toList.map charToLower)

/-! ### Errors thrown by the client layer (`src/railway-client.ts`)

`JsError.api` embeds `RailwayAPIError` (a message plus the optional
`statusCode`); `JsError.other` embeds every other JavaScript `Error`
(network failures from `fetch`, JSON `SyntaxError`s, plain `Error`). -/

/-- A thrown JavaScript error, as observed by `catch` blocks:
either a `RailwayAPIError` (with its optional `statusCode`) or any
other `Error` carrying only a message. -/
inductive JsError where
  | api (message : String) (statusCode : Option Nat)
  | other (message : String)
deriving DecidableEq, Repr

/-- `err.message`. -/
def JsError.message : JsError → String
  | .api m _ => m
  | .other m => m

/-- `err instanceof RailwayAPIError`. -/
def JsError.isRailwayAPIError : JsError → Bool
  | .api _ _ => true
  | .other _ => false

/-- `err.statusCode` (`none` on a non-`RailwayAPIError`, matching the
`undefined` property access in JavaScript). -/
def JsError.statusCode : JsError → Option Nat
  | .api _ sc => sc
  | .other _ => none

/-! ### The resilient client: `RailwayClient.query` (`src/railway-client.ts`) -/

/-- The decoded body `{data?, errors?}` of a 2xx GraphQL response; `errors`
is the list of error messages (`[]` models an absent or empty array). -/
structure GraphQLResponse (T : Type) where
  data : Option T
  errors : List String
deriving DecidableEq, Repr

/-- What one `fetch` of the GraphQL endpoint produces: either the promise
rejects (`netError`), or an HTTP response arrives with a status code, a
text body, and — when the body parses as JSON — the decoded
`GraphQLResponse` (`none` models a JSON parse failure). -/
inductive FetchOutcome (T : Type) where
  | netError (message : String)
  | response (status : Nat) (bodyText : String) (json : Option (GraphQLResponse T))
deriving DecidableEq, Repr

/-- `MAX_RETRIES` from `src/railway-client.ts`. -/
def MAX_RETRIES : Nat := 3

/-- `BASE_DELAY_MS` from `src/railway-client.ts`. -/
def BASE_DELAY_MS : Nat := 500

/-- `MAX_DELAY_MS` from `src/railway-client.ts`. -/
def MAX_DELAY_MS : Nat := 5000

/-- The backoff delay computed before attempt `n` (`n ≥ 1`):
`Math.min(BASE_DELAY_MS * 2 ** (attempt - 1), MAX_DELAY_MS)`. -/
def backoffDelay (n : Nat) : Nat :=
  min (BASE_DELAY_MS * 2 ^ (n - 1)) MAX_DELAY_MS

/-- How one loop iteration of `RailwayClient.query` classifies the fetch
outcome of the current attempt. -/
inductive AttemptOutcome (T : Type) where
  | retry (e : JsError)
  | terminal (e : JsError)
  | done (d : Option T)
deriving DecidableEq, Repr

/-- One iteration of the `for` loop body of `RailwayClient.query`
(`src/railway-client.ts`): status 429 or ≥ 500 records a retryable
`RailwayAPIError` and continues; any other non-2xx status throws a
`RailwayAPIError` that the `catch` clause re-raises (terminal); a JSON
parse failure is a caught non-`RailwayAPIError` (retried); a non-empty
GraphQL `errors` array throws a `RailwayAPIError` without a status code,
which the `catch` clause re-raises (terminal); otherwise `json.data` is
returned. -/
def attemptStep {T : Type} : FetchOutcome T → AttemptOutcome T
  | .netError m => .retry (.other m)
  | .response status bodyText json =>
    if status = 429 ∨ 500 ≤ status then
      .retry (.api ("Railway API returned " ++ toString status) (some status))
    else if ¬ (200 ≤ status ∧ status ≤ 299) then
      .terminal (.api ("Railway API error: " ++ toString status ++ " " ++ bodyText) (some status))
    else
      match json with
      | none => .retry (.other ("Invalid JSON in response body: " ++ bodyText))
      | some g =>
        if g.errors ≠ [] then
          .terminal (.api ("GraphQL error: " ++ g.errors.headD "") none)
        else
          .done g.data

/-- The observable behaviour of one call to `RailwayClient.query`:
its result (the returned `json.data`, or the raised error), the number of
HTTP requests performed, and the backoff delays slept, in order. -/
structure QueryTrace (T : Type) where
  result : Except JsError (Option T)
  requests : Nat
  delays : List Nat

/-- The `for (let attempt = 0; attempt <= MAX_RETRIES; attempt++)` loop of
`RailwayClient.query`, with the remote's behaviour given by `resp`
(the fetch outcome of each attempt, indexed from 0). `remaining` counts
the loop iterations still allowed (`MAX_RETRIES + 1 - attempt`); when it
reaches zero the loop has ended and
`lastError ?? new RailwayAPIError(...)` is raised. Before every attempt
but the first, the computed backoff delay is slept (and recorded here). -/
def queryLoop {T : Type} (resp : Nat → FetchOutcome T) :
    Nat → Nat → Option JsError → QueryTrace T
  | _, 0, lastError =>
    { result := .error (lastError.getD (.api "Railway API request failed after retries" none)),
      requests := 0, delays := [] }
  | attempt, remaining + 1, _ =>
    let slept : List Nat := if attempt = 0 then [] else [backoffDelay attempt]
    match attemptStep (resp attempt) with
    | .done d => { result := .ok d, requests := 1, delays := slept }
    | .terminal e => { result := .error e, requests := 1, delays := slept }
    | .retry e =>
      let rest := queryLoop resp (attempt + 1) remaining (some e)
      { result := rest.result, requests := 1 + rest.requests, delays := slept ++ rest.delays }

/-- One call to `RailwayClient.query` against remote behaviour `resp`:
attempts `0` through `MAX_RETRIES`, no error observed yet. -/
def queryRun {T : Type} (resp : Nat → FetchOutcome T) : QueryTrace T :=
  queryLoop resp 0 (MAX_RETRIES + 1) none

/-! ### The provisioning workflow: `Provisioner` (`src/services/provisioner.ts`) -/

/-- One `{ id, name }` node of the workspace's project list. -/
structure ProjectNode where
  id : String
  name : String
deriving DecidableEq, Repr

/-- The `{ id, email, role }` payload returned by `projectMemberAdd`
(the provisioner ignores it). -/
structure MemberAddResp where
  id : String
  email : String
  role : String
deriving DecidableEq, Repr

/-- The behaviour of the remote API as observed through the client calls
the provisioner makes during one run: `projectCreate name workspaceId`
yields the new project id or raises; `projectMemberAdd projectId userId
role` yields the member payload or raises; `workspaceProjects
workspaceId` is the project list returned by the fallback lookup query. -/
structure ProvisionEnv where
  projectCreate : String → String → Except JsError String
  projectMemberAdd : String → String → String → Except JsError MemberAddResp
  workspaceProjects : String → Except JsError (List ProjectNode)

/-- `email.split("@")[0]`, lower-cased, `[^a-z0-9-]` replaced by `-`,
runs of `-` collapsed, then one leading and one trailing `-` removed
(`.replace(/^-|-$/g, "")`): the sanitisation pipeline of
`Provisioner.deriveProjectName`. -/
def sanitizeLocalPart (email : String) : String :=
  let localPart := (email.toList.takeWhile (fun c => c ≠ '@')).map charToLower
  let replaced := localPart.map (fun c =>
    if ('a' ≤ c ∧ c ≤ 'z') ∨ ('0' ≤ c ∧ c ≤ '9') ∨ c = '-' then c else '-')
  let collapsed := replaced.foldr
    (fun c acc => if c = '-' ∧ acc.headD ' ' = '-' then acc else c :: acc) []
  let noLead := match collapsed with
    | '-' :: rest => rest
    | l => l
  let noTail := match noLead.reverse with
    | '-' :: rest => rest.reverse
    | _ => noLead
  String.mk noTail

/-- `userId.slice(-6)`: the last six characters (the whole string when
shorter). -/
def lastSix (userId : String) : String :=
  String.mk (userId.toList.drop (userId.toList.length - 6))

/-- `Provisioner.deriveProjectName(email, userId)`:
the sanitised email local-part, a dash, and the last six characters of
the user id. -/
def deriveProjectName (email userId : String) : String :=
  sanitizeLocalPart email ++ "-" ++ lastSix userId

/-- `Provisioner.isDuplicateProjectError`: the lowercased message contains
`"duplicate"`, `"already exists"`, or `"unique"`. -/
def isDuplicateProjectError (e : JsError) : Bool :=
  let msg := strToLower e.message
  strContains msg "duplicate" || strContains msg "already exists" || strContains msg "unique"

/-- `Provisioner.isMemberAlreadyExistsError`: the lowercased message
contains `"already"`, `"exists"`, or `"duplicate"`. -/
def isMemberAlreadyExistsError (e : JsError) : Bool :=
  let msg := strToLower e.message
  strContains msg "already" || strContains msg "exists" || strContains msg "duplicate"

/-- `Provisioner.findExistingProject`: list the workspace's projects and
take the first edge whose node name equals `name`; raise a plain `Error`
when there is none. -/
def findExistingProject (env : ProvisionEnv) (name workspaceId : String) :
    Except JsError String :=
  match env.workspaceProjects workspaceId with
  | .error e => .error e
  | .ok edges =>
    match edges.find? (fun p => p.name == name) with
    | some p => .ok p.id
    | none => .error (.other ("Could not find existing project with name: " ++ name))

/-- The `{ userId, email, projectId, projectName, workspaceRole,
projectRole }` record assembled by `Provisioner.provision`
(`ProvisioningResult` in `src/types.ts`). -/
structure ProvisioningResult where
  userId : String
  email : String
  projectId : String
  projectName : String
  workspaceRole : String
  projectRole : String
deriving DecidableEq, Repr

/-- `Provisioner.provision(userId, email, workspaceId)`
(`src/services/provisioner.ts`): create the project named
`deriveProjectName(email, userId)`; on a `RailwayAPIError` matching
`isDuplicateProjectError`, fall back to `findExistingProject`; grant the
user `"ADMIN"` on the resolved project, treating a `RailwayAPIError`
matching `isMemberAlreadyExistsError` as success; every other error
propagates unchanged; finally assemble the `ProvisioningResult` with
`workspaceRole: "VIEWER"` and `projectRole: "ADMIN"`. -/
def provision (env : ProvisionEnv) (userId email workspaceId : String) :
    Except JsError ProvisioningResult :=
  let projectName := deriveProjectName email userId
  let resolved : Except JsError String :=
    match env.projectCreate projectName workspaceId with
    | .ok id => .ok id
    | .error e =>
      if e.isRailwayAPIError ∧ isDuplicateProjectError e then
        findExistingProject env projectName workspaceId
      else
        .error e
  match resolved with
  | .error e => .error e
  | .ok projectId =>
    let grant : Except JsError Unit :=
      match env.projectMemberAdd projectId userId "ADMIN" with
      | .ok _ => .ok ()
      | .error e =>
        if e.isRailwayAPIError ∧ isMemberAlreadyExistsError e then .ok ()
        else .error e
    match grant with
    | .error e => .error e
    | .ok _ =>
      .ok { userId := userId, email := email, projectId := projectId,
            projectName := projectName, workspaceRole := "VIEWER",
            projectRole := "ADMIN" }

/-! ### The webhook handler: `WebhookHandler` (`src/handlers/webhook.ts`) -/

/-- A decoded JSON value (the result of `JSON.parse`). -/
inductive Json where
  | null
  | bool (b : Bool)
  | num (n : Int)
  | str (s : String)
  | arr (elems : List Json)
  | obj (fields : List (String × Json))

/-- JavaScript property access `obj[key]` on a parsed JSON object
(`none` models `undefined`). -/
def Json.getField (j : Json) (key : String) : Option Json :=
  match j with
  | .obj fields => (fields.find? (fun f => f.1 == key)).map (·.2)
  | _ => none

/-- The string content of a field, with `""` when absent or not a string
(only read after `validatePayload` has established it is a string). -/
def Json.getStr (j : Json) (key : String) : String :=
  match j.getField key with
  | some (.str s) => s
  | _ => ""

/-- `WebhookHandler.validatePayload`: a non-null object with a string
`type`, a `details` object with string `userId` and `email`, and a
`resource.workspace` object with a string `id`. Arrays pass JavaScript's
`typeof body === "object"` test but have none of the required string
fields, so they are rejected at the `type` check. -/
def validatePayload (body : Json) : Bool :=
  match body with
  | .obj _ =>
    (match body.getField "type" with | some (.str _) => true | _ => false) &&
    (match body.getField "details" with
     | some d =>
       (match d with
        | .obj _ =>
          (match d.getField "userId" with | some (.str _) => true | _ => false) &&
          (match d.getField "email" with | some (.str _) => true | _ => false)
        | .arr _ =>
          (match d.getField "userId" with | some (.str _) => true | _ => false) &&
          (match d.getField "email" with | some (.str _) => true | _ => false)
        | _ => false)
     | none => false) &&
    (match body.getField "resource" with
     | some r =>
       (match r with
        | .obj _ =>
          (match r.getField "workspace" with
           | some w =>
             (match w with
              | .obj _ => (match w.getField "id" with | some (.str _) => true | _ => false)
              | .arr _ => (match w.getField "id" with | some (.str _) => true | _ => false)
              | _ => false)
           | none => false)
        | .arr _ => false
        | _ => false)
     | none => false)
  | _ => false

/-- JavaScript truthiness of an optional string configuration value
(`undefined` and `""` are falsy). -/
def truthy : Option String → Bool
  | some s => s ≠ ""
  | none => false

/-- Lowercase hexadecimal digit for `n < 16`. -/
def hexDigit (n : Nat) : Char :=
  if n < 10 then Char.ofNat ('0'.toNat + n) else Char.ofNat ('a'.toNat + (n - 10))

/-- `Buffer.from(bytes).toString("hex")`: each byte as two lowercase hex
digits. -/
def hexEncode (bytes : List Nat) : String :=
  String.mk (bytes.flatMap (fun b => [hexDigit (b / 16 % 16), hexDigit (b % 16)]))

/-- `WebhookHandler.verifySignature`: read the `x-webhook-signature`
header; if it or the configured secret is absent or empty (falsy),
return `false`; otherwise compare the header for exact equality with the
lowercase hex encoding of the HMAC-SHA256 of the raw body keyed by the
secret. The HMAC itself is `crypto.subtle` (outside this repository), so
it is a parameter `hmac : secret → message → byte list`. -/
def verifySignature (hmac : String → String → List Nat)
    (secret : Option String) (sigHeader : Option String) (rawBody : String) : Bool :=
  match sigHeader, secret with
  | some sig, some s =>
    if sig = "" ∨ s = "" then false
    else sig == hexEncode (hmac s rawBody)
  | _, _ => false

/-- An inbound HTTP request as the handler observes it: the
`x-webhook-signature` header, the raw body text, and — because
`JSON.parse` is the runtime's, not this repository's — the outcome of
parsing `rawBody` (`none` models a parse exception). -/
structure WebhookRequest where
  signatureHeader : Option String
  rawBody : String
  parsed : Option Json

/-- The slice of `Config` (`src/types.ts`) the handler reads. -/
structure HandlerConfig where
  webhookSecret : Option String

/-- An HTTP response: status code and the distinguishing body field the
handler sets (`error`, or `status`). -/
structure HttpResponse where
  status : Nat
  body : String
deriving DecidableEq, Repr

/-- `WebhookHandler.handleWebhook` (`src/handlers/webhook.ts`), in source
order: parse the raw body as JSON (400 on failure); when a webhook
secret is configured (truthy), verify the signature over the raw body
(401 on failure); structurally validate the payload (400 on failure);
ignore any event type other than `"WorkspaceMember.joined"` (200
ignored); otherwise run `Provisioner.provision` and answer 200 on
success or 500 on failure. -/
def handleWebhook (hmac : String → String → List Nat) (env : ProvisionEnv)
    (config : HandlerConfig) (req : WebhookRequest) : HttpResponse :=
  match req.parsed with
  | none => { status := 400, body := "Invalid JSON" }
  | some body =>
    if truthy config.webhookSecret ∧
        ¬ verifySignature hmac config.webhookSecret req.signatureHeader req.rawBody then
      { status := 401, body := "Invalid signature" }
    else if ¬ validatePayload body then
      { status := 400, body := "Invalid payload" }
    else if body.getStr "type" ≠ "WorkspaceMember.joined" then
      { status := 200, body := "ignored" }
    else
      match provision env
          ((body.getField "details").getD .null |>.getStr "userId")
          ((body.getField "details").getD .null |>.getStr "email")
          (((body.getField "resource").getD .null |>.getField "workspace").getD .null
            |>.getStr "id") with
      | .ok _ => { status := 200, body := "provisioned" }
      | .error _ => { status := 500, body := "Provisioning failed" }

/-! ### Notification-rule reconciliation: `NotificationSetup.ensureNotificationRule` -/

/-- One `{ type, webhookUrl }` channel of a notification rule. -/
structure NotifChannel where
  type : String
  webhookUrl : Option String
deriving DecidableEq, Repr

/-- A notification rule `{ id, eventTypes, channels }` as listed by the
remote API. -/
structure NotificationRule where
  id : String
  eventTypes : List String
  channels : List NotifChannel
deriving DecidableEq, Repr

/-- Modelled from the spec: the remote notification-subscription
operations invoked by `NotificationSetup` — `getNotificationRules`
("list notification subscriptions"), `notificationRuleDelete` ("delete
subscription"), and the signing-secret-bearing `notificationRuleCreate`
("create subscription ... signed with the configured secret if
present") — are not all present in `src/railway-client.ts`, so the
calls the reconciler issues are recorded abstractly, in order. -/
inductive NotifCall where
  | getRules (workspaceId : String)
  | ruleDelete (ruleId : String)
  | ruleCreate (workspaceId : String) (webhookUrl : String) (secret : Option String)
deriving DecidableEq, Repr

/-- The slice of `Config` the reconciler reads. -/
structure NotifConfig where
  workspaceId : String
  publicDomain : Option String
  webhookSecret : Option String

/-- The remote responses the reconciler can observe: the rule list
returned by `getNotificationRules` and the rule returned by
`notificationRuleCreate`. -/
structure NotifEnv where
  rules : List NotificationRule
  created : NotificationRule

/-- `NotificationSetup.findExistingRule`: the first listed rule whose
`eventTypes` contains `"WorkspaceMember.joined"` and which has a
`webhook` channel whose URL equals the expected callback URL. -/
def findExistingRule (rules : List NotificationRule) (webhookUrl : String) :
    Option NotificationRule :=
  rules.find? (fun rule =>
    rule.eventTypes.contains "WorkspaceMember.joined" &&
    rule.channels.any (fun ch => ch.type == "webhook" && ch.webhookUrl == some webhookUrl))

/-- `NotificationSetup.ensureNotificationRule`: skip (with no remote
calls) when no public domain is configured; otherwise list the rules
and look for a matching one; if found and a webhook secret is configured
(truthy), delete it and fall through to creation; if found without a
secret, return it unchanged; otherwise create the rule at the expected
URL, passing the configured secret. Returns the resulting rule together
with the ordered list of remote calls made. -/
def ensureNotificationRule (cfg : NotifConfig) (env : NotifEnv) :
    Option NotificationRule × List NotifCall :=
  if ¬ truthy cfg.publicDomain then (none, [])
  else
    let webhookUrl := "https://" ++ cfg.publicDomain.getD "" ++ "/webhook"
    match findExistingRule env.rules webhookUrl with
    | some existing =>
      if truthy cfg.webhookSecret then
        (some env.created,
         [.getRules cfg.workspaceId, .ruleDelete existing.id,
          .ruleCreate cfg.workspaceId webhookUrl cfg.webhookSecret])
      else
        (some existing, [.getRules cfg.workspaceId])
    | none =>
      (some env.created,
       [.getRules cfg.workspaceId, .ruleCreate cfg.workspaceId webhookUrl cfg.webhookSecret])

/-! ### Helper lemmas -/

/-- One-step unfolding of the retry loop when iterations remain. -/
theorem queryLoop_succ_eq {T : Type} (resp : Nat → FetchOutcome T)
    (attempt r : Nat) (le : Option JsError) :
    queryLoop resp attempt (r + 1) le =
      (let slept : List Nat := if attempt = 0 then [] else [backoffDelay attempt]
       match attemptStep (resp attempt) with
       | .done d => { result := .ok d, requests := 1, delays := slept }
       | .terminal e => { result := .error e, requests := 1, delays := slept }
       | .retry e =>
         let rest := queryLoop resp (attempt + 1) r (some e)
         { result := rest.result, requests := 1 + rest.requests,
           delays := slept ++ rest.delays }) := rfl

/-- Every executed loop entry performs at least one HTTP request. -/
theorem queryLoop_requests_pos {T : Type} (resp : Nat → FetchOutcome T)
    (attempt remaining : Nat) (le : Option JsError) :
    1 ≤ (queryLoop resp attempt (remaining + 1) le).requests := by
  rw [queryLoop_succ_eq]
  cases attemptStep (resp attempt) <;> simp

/-- From any attempt `a ≥ 1` on, the recorded delays are exactly the
backoff delays of attempts `a, a+1, ...`, one per request performed. -/
theorem queryLoop_delays {T : Type} (resp : Nat → FetchOutcome T) :
    ∀ (remaining attempt : Nat) (le : Option JsError), 1 ≤ attempt →
      (queryLoop resp attempt remaining le).delays =
        (List.range (queryLoop resp attempt remaining le).requests).map
          (fun i => backoffDelay (attempt + i)) := by
  intro remaining
  induction remaining with
  | zero => intro attempt le _; simp [queryLoop]
  | succ r ih =>
    intro attempt le hatt
    rw [queryLoop_succ_eq]
    cases hstep : attemptStep (resp attempt) with
    | done d =>
      have : attempt ≠ 0 := by omega
      simp [this, List.range_succ_eq_map]
    | terminal e =>
      have : attempt ≠ 0 := by omega
      simp [this, List.range_succ_eq_map]
    | retry e =>
      have hne : attempt ≠ 0 := by omega
      simp only [hne, if_false, ih (attempt + 1) (some e) (by omega)]
      rw [Nat.add_comm 1, List.range_succ_eq_map]
      simp only [List.map_cons, List.map_map, List.singleton_append, Nat.add_zero,
        List.cons.injEq]
      refine ⟨trivial, ?_⟩
      apply List.map_congr_left
      intro i _
      simp only [Function.comp_apply]
      congr 1
      omega

/-- In any run, the `i`-th recorded delay (before the `(i+1)`-th retry)
is `min(BASE_DELAY_MS * 2^i, MAX_DELAY_MS)`. -/
theorem queryRun_delays_formula {T : Type} (resp : Nat → FetchOutcome T) :
    (queryRun resp).delays =
      (List.range ((queryRun resp).requests - 1)).map
        (fun i => min (BASE_DELAY_MS * 2 ^ i) MAX_DELAY_MS) := by
  have hback : ∀ i, backoffDelay (1 + i) = min (BASE_DELAY_MS * 2 ^ i) MAX_DELAY_MS := by
    intro i
    simp [backoffDelay]
  show (queryLoop resp 0 (3 + 1) none).delays =
    (List.range ((queryLoop resp 0 (3 + 1) none).requests - 1)).map
      (fun i => min (BASE_DELAY_MS * 2 ^ i) MAX_DELAY_MS)
  rw [queryLoop_succ_eq]
  cases hstep : attemptStep (resp 0) with
  | done d => simp
  | terminal e => simp
  | retry e =>
    simp only [if_pos rfl, List.nil_append, Nat.add_sub_cancel_left]
    rw [queryLoop_delays resp 3 1 (some e) (by omega)]
    apply List.map_congr_left
    intro i _
    exact hback i

/-- The hex encoding of `n` bytes has `2 * n` characters. -/
theorem hexEncode_length (bytes : List Nat) :
    (hexEncode bytes).toList.length = 2 * bytes.length := by
  induction bytes with
  | nil => rfl
  | cons b rest ih =>
    simp only [hexEncode, String.toList] at ih ⊢
    simp [List.flatMap_cons, ih]
    omega

/-- The hex encoding of a non-empty byte list is a non-empty string. -/
theorem hexEncode_ne_empty (bytes : List Nat) (h : bytes ≠ []) :
    hexEncode bytes ≠ "" := by
  intro hcontra
  have : (hexEncode bytes).toList.length = 0 := by rw [hcontra]; rfl
  rw [hexEncode_length] at this
  cases bytes with
  | nil => exact h rfl
  | cons a l => simp at this

/-- Every hex digit emitted is a lowercase hexadecimal character. -/
theorem hexDigit_lowercase (n : Nat) (h : n < 16) :
    hexDigit n ∈ "0123456789abcdef".toList := by
  interval_cases n <;> decide

/-! ### Claim theorems -/

/-- C1: for a fixed `(userId, email, workspaceId)`, if a first
`Provisioner.provision` run succeeds with project id `P` and a second
run sees `projectCreate` fail with a duplicate-marker `RailwayAPIError`
and `projectMemberAdd` fail with an already-exists `RailwayAPIError`,
while the workspace's project list holds the project named
`deriveProjectName email userId` with id `P` (and no other id under that
name), then the second run also succeeds and returns the same
`projectId` `P`. -/
theorem provision_idempotent (env1 env2 : ProvisionEnv) (u e w : String)
    (r1 : ProvisioningResult) (ec em : JsError) (l : List ProjectNode)
    (h1 : provision env1 u e w = .ok r1)
    (hc : env2.projectCreate (deriveProjectName e u) w = .error ec)
    (hcApi : ec.isRailwayAPIError = true) (hcDup : isDuplicateProjectError ec = true)
    (hl : env2.workspaceProjects w = .ok l)
    (hall : ∀ p ∈ l, p.name = deriveProjectName e u → p.id = r1.projectId)
    (hex : ∃ p ∈ l, p.name = deriveProjectName e u)
    (hm : env2.projectMemberAdd r1.projectId u "ADMIN" = .error em)
    (hmApi : em.isRailwayAPIError = true) (hmEx : isMemberAlreadyExistsError em = true) :
    ∃ r2, provision env2 u e w = .ok r2 ∧ r2.projectId = r1.projectId := by
  obtain ⟨q, hq⟩ : ∃ q, l.find? (fun p => p.name == deriveProjectName e u) = some q := by
    cases hfind : l.find? (fun p => p.name == deriveProjectName e u) with
    | some q => exact ⟨q, rfl⟩
    | none =>
      rw [List.find?_eq_none] at hfind
      obtain ⟨p, hp, hpname⟩ := hex
      exact absurd (by simpa [beq_iff_eq] using hpname) (hfind p hp)
  have hqname : q.name = deriveProjectName e u := by
    have := List.find?_some hq
    simpa [beq_iff_eq] using this
  have hqid : q.id = r1.projectId :=
    hall q (List.mem_of_find?_eq_some hq) hqname
  refine ⟨{ userId := u, email := e, projectId := q.id,
            projectName := deriveProjectName e u,
            workspaceRole := "VIEWER", projectRole := "ADMIN" }, ?_, hqid⟩
  simp only [provision, hc, hcApi, hcDup, and_self, if_true, findExistingProject, hl, hq,
    hqid, hm, hmApi, hmEx]

/-- Witness for C1 at concrete environments: the second run, facing both
conflicts, returns project id "P1" again. -/
theorem provision_idempotent_witness :
    ∃ r2, provision
      { projectCreate := fun _ _ => .error (.api "duplicate key" (some 409)),
        projectMemberAdd := fun _ _ _ => .error (.api "user already exists" (some 409)),
        workspaceProjects := fun _ => .ok [{ id := "P1", name := "a-u7" }] }
      "u7" "a@b.c" "ws-1" = .ok r2 ∧ r2.projectId = "P1" := by
  have h := provision_idempotent
    { projectCreate := fun _ _ => .ok "P1",
      projectMemberAdd := fun _ _ _ => .ok { id := "m", email := "a@b.c", role := "ADMIN" },
      workspaceProjects := fun _ => .ok [] }
    { projectCreate := fun _ _ => .error (.api "duplicate key" (some 409)),
      projectMemberAdd := fun _ _ _ => .error (.api "user already exists" (some 409)),
      workspaceProjects := fun _ => .ok [{ id := "P1", name := "a-u7" }] }
    "u7" "a@b.c" "ws-1"
    { userId := "u7", email := "a@b.c", projectId := "P1",
      projectName := "a-u7", workspaceRole := "VIEWER", projectRole := "ADMIN" }
    (.api "duplicate key" (some 409)) (.api "user already exists" (some 409))
    [{ id := "P1", name := "a-u7" }]
    rfl rfl rfl (by decide) rfl (by decide) (by decide) rfl rfl (by decide)
  exact h

/-- C2: a remote answering 429 twice then 2xx-with-data costs exactly 3
HTTP requests and returns the data; a remote always answering 503 costs
exactly 4 requests (1 initial + `MAX_RETRIES`) and raises the last
observed failure; and in every run the delay before the `n`-th retry
(`n = i + 1`) is `min(BASE_DELAY_MS * 2 ^ i, MAX_DELAY_MS)`. -/
theorem query_retry_and_backoff (T : Type) (d : T) (resp respB : Nat → FetchOutcome T)
    (st : Nat) (b0 b1 b2 : String) (j0 j1 : Option (GraphQLResponse T))
    (bB : Nat → String) (jB : Nat → Option (GraphQLResponse T))
    (hst1 : 200 ≤ st) (hst2 : st ≤ 299)
    (h0 : resp 0 = .response 429 b0 j0)
    (h1 : resp 1 = .response 429 b1 j1)
    (h2 : resp 2 = .response st b2 (some { data := some d, errors := [] }))
    (hB : ∀ n, respB n = .response 503 (bB n) (jB n)) :
    ((queryRun resp).result = .ok (some d) ∧ (queryRun resp).requests = 3 ∧
      (queryRun resp).delays = [500, 1000])
    ∧ ((queryRun respB).result =
          .error (.api ("Railway API returned " ++ toString 503) (some 503)) ∧
        (queryRun respB).requests = 4 ∧ (queryRun respB).delays = [500, 1000, 2000])
    ∧ (∀ (r : Nat → FetchOutcome T), (queryRun r).delays =
        (List.range ((queryRun r).requests - 1)).map
          (fun i => min (BASE_DELAY_MS * 2 ^ i) MAX_DELAY_MS)) := by
  have e429 : ∀ (b : String) (j : Option (GraphQLResponse T)),
      attemptStep (.response 429 b j) =
        .retry (.api ("Railway API returned " ++ toString 429) (some 429)) := by
    intro b j
    simp [attemptStep]
  have e2xx : attemptStep (.response st b2 (some { data := some d, errors := [] })) =
      .done (some d) := by
    have hn1 : ¬ (st = 429 ∨ 500 ≤ st) := by omega
    have hn2 : ¬ ¬ (200 ≤ st ∧ st ≤ 299) := by omega
    simp only [attemptStep, if_neg hn1, if_neg hn2]
    simp
  have e503 : ∀ (b : String) (j : Option (GraphQLResponse T)),
      attemptStep (.response 503 b j) =
        .retry (.api ("Railway API returned " ++ toString 503) (some 503)) := by
    intro b j
    simp [attemptStep]
  refine ⟨?_, ?_, fun r => queryRun_delays_formula r⟩
  · have t2 : ∀ le, queryLoop resp 2 2 le =
        { result := .ok (some d), requests := 1, delays := [1000] } := by
      intro le
      show queryLoop resp 2 (1 + 1) le = _
      rw [queryLoop_succ_eq, h2, e2xx]
      show ({ result := Except.ok (some d), requests := 1,
              delays := [backoffDelay 2] } : QueryTrace T) = _
      norm_num [backoffDelay, BASE_DELAY_MS, MAX_DELAY_MS]
    have t1 : ∀ le, queryLoop resp 1 3 le =
        { result := .ok (some d), requests := 2, delays := [500, 1000] } := by
      intro le
      show queryLoop resp 1 (2 + 1) le = _
      rw [queryLoop_succ_eq, h1, e429 b1 j1]
      show ({ result := (queryLoop resp 2 2 _).result,
              requests := 1 + (queryLoop resp 2 2 _).requests,
              delays := [backoffDelay 1] ++ (queryLoop resp 2 2 _).delays } : QueryTrace T) = _
      rw [t2]
      norm_num [backoffDelay, BASE_DELAY_MS, MAX_DELAY_MS]
    have t0 : queryRun resp =
        { result := .ok (some d), requests := 3, delays := [500, 1000] } := by
      show queryLoop resp 0 (3 + 1) none = _
      rw [queryLoop_succ_eq, h0, e429 b0 j0]
      show ({ result := (queryLoop resp 1 3 _).result,
              requests := 1 + (queryLoop resp 1 3 _).requests,
              delays := [] ++ (queryLoop resp 1 3 _).delays } : QueryTrace T) = _
      rw [t1]
      norm_num
    rw [t0]
    exact ⟨rfl, rfl, rfl⟩
  · have u0 : ∀ le, queryLoop respB 3 1 le =
        { result := .error (.api ("Railway API returned " ++ toString 503) (some 503)),
          requests := 1, delays := [2000] } := by
      intro le
      show queryLoop respB 3 (0 + 1) le = _
      rw [queryLoop_succ_eq, hB 3, e503]
      show ({ result := _, requests := 1, delays := [backoffDelay 3] } : QueryTrace T) = _
      norm_num [backoffDelay, BASE_DELAY_MS, MAX_DELAY_MS]
      rfl
    have u1 : ∀ le, queryLoop respB 2 2 le =
        { result := .error (.api ("Railway API returned " ++ toString 503) (some 503)),
          requests := 2, delays := [1000, 2000] } := by
      intro le
      show queryLoop respB 2 (1 + 1) le = _
      rw [queryLoop_succ_eq, hB 2, e503]
      show ({ result := (queryLoop respB 3 1 _).result,
              requests := 1 + (queryLoop respB 3 1 _).requests,
              delays := [backoffDelay 2] ++ (queryLoop respB 3 1 _).delays } : QueryTrace T) = _
      rw [u0]
      norm_num [backoffDelay, BASE_DELAY_MS, MAX_DELAY_MS]
    have u2 : ∀ le, queryLoop respB 1 3 le =
        { result := .error (.api ("Railway API returned " ++ toString 503) (some 503)),
          requests := 3, delays := [500, 1000, 2000] } := by
      intro le
      show queryLoop respB 1 (2 + 1) le = _
      rw [queryLoop_succ_eq, hB 1, e503]
      show ({ result := (queryLoop respB 2 2 _).result,
              requests := 1 + (queryLoop respB 2 2 _).requests,
              delays := [backoffDelay 1] ++ (queryLoop respB 2 2 _).delays } : QueryTrace T) = _
      rw [u1]
      norm_num [backoffDelay, BASE_DELAY_MS, MAX_DELAY_MS]
    have u3 : queryRun respB =
        { result := .error (.api ("Railway API returned " ++ toString 503) (some 503)),
          requests := 4, delays := [500, 1000, 2000] } := by
      show queryLoop respB 0 (3 + 1) none = _
      rw [queryLoop_succ_eq, hB 0, e503]
      show ({ result := (queryLoop respB 1 3 _).result,
              requests := 1 + (queryLoop respB 1 3 _).requests,
              delays := [] ++ (queryLoop respB 1 3 _).delays } : QueryTrace T) = _
      rw [u2]
      norm_num
    rw [u3]
    exact ⟨rfl, rfl, rfl⟩

/-- Witness for C2 at concrete remote behaviours. -/
theorem query_retry_and_backoff_witness :
    ((queryRun (T := Nat) (fun n => match n with
        | 0 => .response 429 "" none
        | 1 => .response 429 "" none
        | _ => .response 200 "" (some { data := some 7, errors := [] }))).result =
      .ok (some 7))
    ∧ ((queryRun (T := Nat) (fun _ => .response 503 "Service Unavailable" none)).requests = 4) := by
  have h := query_retry_and_backoff Nat 7
    (fun n => match n with
      | 0 => .response 429 "" none
      | 1 => .response 429 "" none
      | _ => .response 200 "" (some { data := some 7, errors := [] }))
    (fun _ => .response 503 "Service Unavailable" none)
    200 "" "" "" none none (fun _ => "Service Unavailable") (fun _ => none)
    (by omega) (by omega) rfl rfl rfl (fun n => rfl)
  exact ⟨h.1.1, h.2.1.2.1⟩

/-- C3: within one `RailwayClient.query` call, status 429 or ≥ 500 is
classified retryable (consuming an attempt without throwing), any other
non-2xx status is terminal, and a non-empty GraphQL `errors` array in a
2xx response is terminal; a terminal first attempt raises immediately
after exactly one request, while a retryable first attempt is followed
by at least one more request. -/
theorem query_error_classification (T : Type) :
    (∀ (st : Nat) (b : String) (j : Option (GraphQLResponse T)),
        st = 429 ∨ 500 ≤ st →
        attemptStep (.response st b j) =
          .retry (.api ("Railway API returned " ++ toString st) (some st)))
    ∧ (∀ (st : Nat) (b : String) (j : Option (GraphQLResponse T)),
        ¬ (st = 429 ∨ 500 ≤ st) → ¬ (200 ≤ st ∧ st ≤ 299) →
        attemptStep (.response st b j) =
          .terminal (.api ("Railway API error: " ++ toString st ++ " " ++ b) (some st)))
    ∧ (∀ (st : Nat) (b : String) (d : Option T) (errs : List String),
        200 ≤ st → st ≤ 299 → errs ≠ [] →
        attemptStep (.response st b (some { data := d, errors := errs })) =
          .terminal (.api ("GraphQL error: " ++ errs.headD "") none))
    ∧ (∀ (resp : Nat → FetchOutcome T) (e : JsError),
        attemptStep (resp 0) = .terminal e →
        (queryRun resp).result = .error e ∧ (queryRun resp).requests = 1)
    ∧ (∀ (resp : Nat → FetchOutcome T) (e : JsError),
        attemptStep (resp 0) = .retry e → 2 ≤ (queryRun resp).requests) := by
  refine ⟨?_, ?_, ?_, ?_, ?_⟩
  · intro st b j h
    simp only [attemptStep, if_pos h]
  · intro st b j h1 h2
    simp only [attemptStep, if_neg h1, if_pos h2]
  · intro st b d errs h200 h299 herr
    have h1 : ¬ (st = 429 ∨ 500 ≤ st) := by omega
    have h2 : ¬ ¬ (200 ≤ st ∧ st ≤ 299) := by omega
    simp only [attemptStep, if_neg h1, if_neg h2, if_pos herr]
  · intro resp e h
    have : queryRun resp = { result := .error e, requests := 1, delays := [] } := by
      show queryLoop resp 0 (3 + 1) none = _
      rw [queryLoop_succ_eq, h]
      rfl
    rw [this]
    exact ⟨rfl, rfl⟩
  · intro resp e h
    have : queryRun resp =
        { result := (queryLoop resp 1 3 (some e)).result,
          requests := 1 + (queryLoop resp 1 3 (some e)).requests,
          delays := (queryLoop resp 1 3 (some e)).delays } := by
      show queryLoop resp 0 (3 + 1) none = _
      rw [queryLoop_succ_eq, h]
      rfl
    rw [this]
    have hpos : 1 ≤ (queryLoop resp 1 3 (some e)).requests :=
      queryLoop_requests_pos resp 1 2 (some e)
    show 2 ≤ 1 + (queryLoop resp 1 3 (some e)).requests
    omega

/-- Witness for C3 at concrete statuses and remote behaviours. -/
theorem query_error_classification_witness :
    (attemptStep (T := Nat) (.response 429 "x" none) =
      .retry (.api ("Railway API returned " ++ toString 429) (some 429)))
    ∧ (attemptStep (T := Nat) (.response 403 "Forbidden" none) =
      .terminal (.api ("Railway API error: " ++ toString 403 ++ " " ++ "Forbidden") (some 403)))
    ∧ (attemptStep (T := Nat) (.response 200 "b" (some { data := none, errors := ["Not found"] })) =
      .terminal (.api ("GraphQL error: " ++ (["Not found"] : List String).headD "") none))
    ∧ ((queryRun (T := Nat) (fun _ => .response 403 "Forbidden" none)).result =
        .error (.api ("Railway API error: " ++ toString 403 ++ " " ++ "Forbidden") (some 403)) ∧
       (queryRun (T := Nat) (fun _ => .response 403 "Forbidden" none)).requests = 1)
    ∧ 2 ≤ (queryRun (T := Nat) (fun _ => .response 429 "x" none)).requests := by
  refine ⟨(query_error_classification Nat).1 429 "x" none (Or.inl rfl),
          (query_error_classification Nat).2.1 403 "Forbidden" none (by omega) (by omega),
          (query_error_classification Nat).2.2.1 200 "b" none ["Not found"]
            (by omega) (by omega) (by simp),
          (query_error_classification Nat).2.2.2.1 (fun _ => .response 403 "Forbidden" none)
            (.api ("Railway API error: " ++ toString 403 ++ " " ++ "Forbidden") (some 403))
            (by decide),
          (query_error_classification Nat).2.2.2.2 (fun _ => .response 429 "x" none)
            (.api ("Railway API returned " ++ toString 429) (some 429)) (by decide)⟩

/-- C4: when `projectCreate` fails with a duplicate-marker
`RailwayAPIError`, `provision` falls back to the workspace's project
list and selects the project whose name exactly equals the derived
name; when no exact-name match exists it raises the terminal
"Could not find existing project" error; and any `projectCreate` failure
not matching the duplicate markers propagates unchanged. -/
theorem provision_create_conflict (env : ProvisionEnv) (u e w : String) (ec : JsError)
    (hc : env.projectCreate (deriveProjectName e u) w = .error ec) :
    (∀ (l : List ProjectNode) (q : ProjectNode) (resp : MemberAddResp),
        ec.isRailwayAPIError = true → isDuplicateProjectError ec = true →
        env.workspaceProjects w = .ok l →
        l.find? (fun p => p.name == deriveProjectName e u) = some q →
        env.projectMemberAdd q.id u "ADMIN" = .ok resp →
        q.name = deriveProjectName e u ∧
        provision env u e w =
          .ok { userId := u, email := e, projectId := q.id,
                projectName := deriveProjectName e u,
                workspaceRole := "VIEWER", projectRole := "ADMIN" })
    ∧ (∀ (l : List ProjectNode),
        ec.isRailwayAPIError = true → isDuplicateProjectError ec = true →
        env.workspaceProjects w = .ok l →
        (∀ p ∈ l, p.name ≠ deriveProjectName e u) →
        provision env u e w =
          .error (.other ("Could not find existing project with name: " ++
            deriveProjectName e u)))
    ∧ (¬ (ec.isRailwayAPIError = true ∧ isDuplicateProjectError ec = true) →
        provision env u e w = .error ec) := by
  refine ⟨?_, ?_, ?_⟩
  · intro l q resp hapi hdup hl hfind hma
    have hqname : q.name = deriveProjectName e u := by
      have := List.find?_some hfind
      simpa [beq_iff_eq] using this
    refine ⟨hqname, ?_⟩
    simp only [provision, hc, hapi, hdup, and_self, if_true, findExistingProject, hl, hfind,
      hma]
  · intro l hapi hdup hl hnone
    have hfind : l.find? (fun p => p.name == deriveProjectName e u) = none := by
      rw [List.find?_eq_none]
      intro p hp
      simpa [beq_iff_eq] using hnone p hp
    simp [provision, hc, hapi, hdup, findExistingProject, hl, hfind]
  · intro hnot
    simp only [provision, hc]
    rw [if_neg hnot]

/-- Witness for C4 at a concrete environment exercising the fallback. -/
theorem provision_create_conflict_witness :
    ({ id := "P9", name := "a-u7" } : ProjectNode).name = deriveProjectName "a@b.c" "u7" ∧
    provision
      { projectCreate := fun _ _ => .error (.api "Project name already exists" (some 409)),
        projectMemberAdd := fun _ _ _ => .ok { id := "m", email := "a@b.c", role := "ADMIN" },
        workspaceProjects := fun _ => .ok [{ id := "P9", name := "a-u7" }] }
      "u7" "a@b.c" "ws-1" =
      .ok { userId := "u7", email := "a@b.c", projectId := "P9",
            projectName := deriveProjectName "a@b.c" "u7",
            workspaceRole := "VIEWER", projectRole := "ADMIN" } :=
  (provision_create_conflict
    { projectCreate := fun _ _ => .error (.api "Project name already exists" (some 409)),
      projectMemberAdd := fun _ _ _ => .ok { id := "m", email := "a@b.c", role := "ADMIN" },
      workspaceProjects := fun _ => .ok [{ id := "P9", name := "a-u7" }] }
    "u7" "a@b.c" "ws-1" (.api "Project name already exists" (some 409)) rfl).1
    [{ id := "P9", name := "a-u7" }] { id := "P9", name := "a-u7" }
    { id := "m", email := "a@b.c", role := "ADMIN" }
    rfl (by decide) rfl (by decide) rfl

/-- C5: a `projectMemberAdd` failure whose message indicates the
membership already exists is treated as success and the assembled
`ProvisioningResult` is still returned; any other `projectMemberAdd`
failure is surfaced unchanged, carrying the original message. -/
theorem provision_member_conflict (env : ProvisionEnv) (u e w P : String)
    (em : JsError)
    (hc : env.projectCreate (deriveProjectName e u) w = .ok P)
    (hma : env.projectMemberAdd P u "ADMIN" = .error em) :
    (em.isRailwayAPIError = true → isMemberAlreadyExistsError em = true →
      provision env u e w =
        .ok { userId := u, email := e, projectId := P,
              projectName := deriveProjectName e u,
              workspaceRole := "VIEWER", projectRole := "ADMIN" })
    ∧ (¬ (em.isRailwayAPIError = true ∧ isMemberAlreadyExistsError em = true) →
        provision env u e w = .error em) := by
  constructor
  · intro hapi hex
    simp only [provision, hc, hma, hapi, hex]
    simp
  · intro hnot
    simp only [provision, hc, hma]
    rw [if_neg]
    simp [hnot]

/-- Witness for C5 at a concrete environment with a membership
conflict. -/
theorem provision_member_conflict_witness :
    provision
      { projectCreate := fun _ _ => .ok "P1",
        projectMemberAdd := fun _ _ _ => .error (.api "member already exists" (some 409)),
        workspaceProjects := fun _ => .ok [] } "u7" "a@b.c" "ws-1" =
      .ok { userId := "u7", email := "a@b.c", projectId := "P1",
            projectName := deriveProjectName "a@b.c" "u7",
            workspaceRole := "VIEWER", projectRole := "ADMIN" } :=
  (provision_member_conflict
    { projectCreate := fun _ _ => .ok "P1",
      projectMemberAdd := fun _ _ _ => .error (.api "member already exists" (some 409)),
      workspaceProjects := fun _ => .ok [] } "u7" "a@b.c" "ws-1" "P1"
    (.api "member already exists" (some 409)) rfl rfl).1 rfl (by decide)

/-- C6 counterexample: the derived project name is not a function of the
email local-part alone — `deriveProjectName "john.doe@example.com"
"user-1"` is `"john-doe-user-1"`, not `"john-doe"`, and changing only
the user id changes the name. -/
theorem deriveProjectName_userid_suffix_cex :
    deriveProjectName "john.doe@example.com" "user-1" ≠ "john-doe" ∧
    deriveProjectName "john.doe@example.com" "user-1" ≠
      deriveProjectName "john.doe@example.com" "other9" := by
  decide

/-- C6 (amended): the derived project name is the sanitised email
local-part — lower-cased, characters outside `[a-z0-9-]` replaced by
`-`, runs of `-` collapsed, leading/trailing `-` trimmed — followed by a
dash and the last six characters of the user id; the sanitisation alone
maps `"john.doe@example.com"` to `"john-doe"`,
`"John_Doe+test@example.com"` to `"john-doe-test"`, and
`".john.@example.com"` to `"john"`. -/
theorem deriveProjectName_amended :
    (∀ email userId, deriveProjectName email userId =
        sanitizeLocalPart email ++ "-" ++ lastSix userId)
    ∧ sanitizeLocalPart "john.doe@example.com" = "john-doe"
    ∧ sanitizeLocalPart "John_Doe+test@example.com" = "john-doe-test"
    ∧ sanitizeLocalPart ".john.@example.com" = "john"
    ∧ sanitizeLocalPart "john..doe@example.com" = "john-doe"
    ∧ deriveProjectName "john.doe@example.com" "user-1" = "john-doe-user-1"
    ∧ deriveProjectName "John_Doe+test@example.com" "a3f2b1" = "john-doe-test-a3f2b1" := by
  refine ⟨fun email userId => rfl, ?_, ?_, ?_, ?_, ?_, ?_⟩ <;> decide

/-- C7: when a matching subscription exists and a signing secret is
configured, `ensureNotificationRule` performs exactly one
`getNotificationRules`, then exactly one delete of the found rule (by
its id) followed by exactly one create at the expected callback URL
carrying the configured secret. -/
theorem ensureNotificationRule_resync (cfg : NotifConfig) (env : NotifEnv)
    (dm sc : String) (r : NotificationRule)
    (hdom : cfg.publicDomain = some dm) (hdm : dm ≠ "")
    (hsec : cfg.webhookSecret = some sc) (hsc : sc ≠ "")
    (hfind : findExistingRule env.rules ("https://" ++ dm ++ "/webhook") = some r) :
    ensureNotificationRule cfg env =
      (some env.created,
       [.getRules cfg.workspaceId, .ruleDelete r.id,
        .ruleCreate cfg.workspaceId ("https://" ++ dm ++ "/webhook") (some sc)]) := by
  simp [ensureNotificationRule, hdom, hsec, truthy, hdm, hsc, hfind]

/-- Witness for C7 at a concrete configuration and rule list. -/
theorem ensureNotificationRule_resync_witness :
    ensureNotificationRule
      { workspaceId := "ws-1", publicDomain := some "app.example", webhookSecret := some "s" }
      { rules := [{ id := "rule-9", eventTypes := ["WorkspaceMember.joined"],
                    channels := [{ type := "webhook",
                                   webhookUrl := some "https://app.example/webhook" }] }],
        created := { id := "rule-new", eventTypes := ["WorkspaceMember.joined"],
                     channels := [] } } =
      (some { id := "rule-new", eventTypes := ["WorkspaceMember.joined"], channels := [] },
       [.getRules "ws-1", .ruleDelete "rule-9",
        .ruleCreate "ws-1" "https://app.example/webhook" (some "s")]) := by
  exact ensureNotificationRule_resync _ _ "app.example" "s"
    { id := "rule-9", eventTypes := ["WorkspaceMember.joined"],
      channels := [{ type := "webhook", webhookUrl := some "https://app.example/webhook" }] }
    rfl (by decide) rfl (by decide) (by decide)

/-- C8 counterexample: with a secret configured and an invalid-JSON body,
a request whose signature fails to verify receives 400 (from the JSON
parse), not 401 — JSON parsing precedes signature verification. -/
theorem handleWebhook_parse_first_cex :
    verifySignature (fun _ _ => []) (some "secret1") none "not json" = false ∧
    handleWebhook (fun _ _ => [])
      { projectCreate := fun _ _ => .error (.other "down"),
        projectMemberAdd := fun _ _ _ => .error (.other "down"),
        workspaceProjects := fun _ => .error (.other "down") }
      { webhookSecret := some "secret1" }
      { signatureHeader := none, rawBody := "not json", parsed := none } =
      { status := 400, body := "Invalid JSON" } := by
  exact ⟨rfl, rfl⟩

/-- C8 (amended): `handleWebhook` parses the body first, so an
unparseable body yields 400 regardless of signature; for a body that
parses, with a secret configured, signature verification over the exact
raw body runs before structural validation — a failing signature yields
401, and the failed-validation 400 is only reachable when the signature
verified. -/
theorem handleWebhook_order_amended (hmac : String → String → List Nat)
    (env : ProvisionEnv) (cfg : HandlerConfig) (req : WebhookRequest) :
    (req.parsed = none →
      handleWebhook hmac env cfg req = { status := 400, body := "Invalid JSON" })
    ∧ (∀ b, req.parsed = some b → truthy cfg.webhookSecret = true →
        verifySignature hmac cfg.webhookSecret req.signatureHeader req.rawBody = false →
        handleWebhook hmac env cfg req = { status := 401, body := "Invalid signature" })
    ∧ (∀ b, req.parsed = some b → truthy cfg.webhookSecret = true →
        handleWebhook hmac env cfg req = { status := 400, body := "Invalid payload" } →
        verifySignature hmac cfg.webhookSecret req.signatureHeader req.rawBody = true) := by
  refine ⟨?_, ?_, ?_⟩
  · intro h
    simp [handleWebhook, h]
  · intro b hb hsec hver
    simp [handleWebhook, hb, hsec, hver]
  · intro b hb hsec hresp
    by_contra hver
    rw [Bool.not_eq_true] at hver
    have : handleWebhook hmac env cfg req = { status := 401, body := "Invalid signature" } := by
      simp [handleWebhook, hb, hsec, hver]
    rw [this] at hresp
    exact absurd (congrArg HttpResponse.status hresp) (by decide)

/-- Witness for C8's amended ordering at a concrete request. -/
theorem handleWebhook_order_amended_witness :
    handleWebhook (fun _ _ => [])
      { projectCreate := fun _ _ => .error (.other "down"),
        projectMemberAdd := fun _ _ _ => .error (.other "down"),
        workspaceProjects := fun _ => .error (.other "down") }
      { webhookSecret := some "s" }
      { signatureHeader := some "bad", rawBody := "{}", parsed := some (.obj []) } =
      { status := 401, body := "Invalid signature" } :=
  (handleWebhook_order_amended (fun _ _ => [])
    { projectCreate := fun _ _ => .error (.other "down"),
      projectMemberAdd := fun _ _ _ => .error (.other "down"),
      workspaceProjects := fun _ => .error (.other "down") }
    { webhookSecret := some "s" }
    { signatureHeader := some "bad", rawBody := "{}", parsed := some (.obj []) }).2.1
    (.obj []) rfl rfl rfl

/-- C9: `verifySignature` returns true exactly when the supplied header
equals the lowercase hex encoding of the HMAC-SHA256 of the raw body
keyed by the (non-empty) secret; it returns false — it is a total
function — when the header is missing, and it rejects every signature
differing from the correct one; the encoding uses only lowercase
hexadecimal characters. -/
theorem verifySignature_spec (hmac : String → String → List Nat) (secret body : String)
    (hsec : secret ≠ "") (hlen : (hmac secret body).length = 32) :
    (∀ sigHeader, verifySignature hmac (some secret) sigHeader body = true ↔
        sigHeader = some (hexEncode (hmac secret body)))
    ∧ verifySignature hmac (some secret) none body = false
    ∧ (∀ sig, sig ≠ hexEncode (hmac secret body) →
        verifySignature hmac (some secret) (some sig) body = false)
    ∧ (∀ c ∈ (hexEncode (hmac secret body)).toList, c ∈ "0123456789abcdef".toList) := by
  have hne : hexEncode (hmac secret body) ≠ "" := by
    apply hexEncode_ne_empty
    intro hnil
    rw [hnil] at hlen
    simp at hlen
  refine ⟨?_, rfl, ?_, ?_⟩
  · intro sigHeader
    constructor
    · intro h
      match sigHeader with
      | none => exact absurd h (by simp [verifySignature])
      | some sig =>
        simp only [verifySignature] at h
        split at h
        · exact absurd h (by simp)
        · simp only [beq_iff_eq] at h
          rw [h]
    · intro h
      subst h
      simp only [verifySignature]
      split
      · rename_i hsplit
        exact absurd hsplit (by simp [hne, hsec])
      · simp
  · intro sig hne2
    simp only [verifySignature]
    split
    · rfl
    · simp [hne2]
  · intro c hc
    simp only [hexEncode, String.toList] at hc
    rw [List.mem_flatMap] at hc
    obtain ⟨b, _, hb⟩ := hc
    simp only [List.mem_cons, List.mem_singleton] at hb
    rcases hb with h1 | h1 | h1
    · rw [h1]; exact hexDigit_lowercase _ (Nat.mod_lt _ (by omega))
    · rw [h1]; exact hexDigit_lowercase _ (Nat.mod_lt _ (by omega))
    · exact absurd h1 (by simp)

/-- Witness for C9: a missing header is rejected and the correctly
computed signature is accepted, for a concrete HMAC function. -/
theorem verifySignature_spec_witness :
    (verifySignature (fun _ _ => List.replicate 32 7) (some "s3cret") none "body" = false)
    ∧ (verifySignature (fun _ _ => List.replicate 32 7) (some "s3cret")
        (some (hexEncode (List.replicate 32 7))) "body" = true) := by
  have h := verifySignature_spec (fun _ _ => List.replicate 32 7) "s3cret" "body"
    (by decide) (by simp)
  exact ⟨h.2.1, (h.1 (some (hexEncode (List.replicate 32 7)))).2 rfl⟩

/-- C10: every `ProvisioningResult` that `Provisioner.provision` returns
has `workspaceRole = "VIEWER"` and `projectRole = "ADMIN"`, whatever the
environment (including whatever role string the remote `projectMemberAdd`
response reports) and inputs. -/
theorem provision_roles_constant (env : ProvisionEnv) (u e w : String)
    (r : ProvisioningResult) (h : provision env u e w = .ok r) :
    r.workspaceRole = "VIEWER" ∧ r.projectRole = "ADMIN" := by
  unfold provision at h
  dsimp only at h
  split at h
  · exact absurd h (by simp)
  · split at h
    · exact absurd h (by simp)
    · injection h with h2
      subst h2
      exact ⟨rfl, rfl⟩

/-- Witness for C10 at a concrete environment. -/
theorem provision_roles_constant_witness :
    (provision
      { projectCreate := fun _ _ => .ok "P1",
        projectMemberAdd := fun _ _ _ => .ok { id := "m", email := "a@b.c", role := "ADMIN" },
        workspaceProjects := fun _ => .ok [] } "user-1" "a@b.c" "ws-1" =
      .ok { userId := "user-1", email := "a@b.c", projectId := "P1",
            projectName := "a-user-1", workspaceRole := "VIEWER", projectRole := "ADMIN" })
    ∧ ("VIEWER" : String) = "VIEWER" ∧ ("ADMIN" : String) = "ADMIN" := by
  refine ⟨rfl, ?_⟩
  exact provision_roles_constant
    { projectCreate := fun _ _ => .ok "P1",
      projectMemberAdd := fun _ _ _ => .ok { id := "m", email := "a@b.c", role := "ADMIN" },
      workspaceProjects := fun _ => .ok [] } "user-1" "a@b.c" "ws-1"
    { userId := "user-1", email := "a@b.c", projectId := "P1",
      projectName := "a-user-1", workspaceRole := "VIEWER", projectRole := "ADMIN" } rfl
